import Mathlib

/-!
Verification of the `candied` evolution simulation (final design under
`src/candied/`): creatures forage for candies on a toroidal plane, expend
energy per tick, and evolve at the end of each day.

The embedding is a shallow one:
* `Creature K` mirrors the mutable fields of `candied/agent.py`'s `Creature`
  that the verified properties touch (the `agent_type` tag, the
  `made_children` counter — never updated anywhere — and the
  `known_energy_costs`/`KE`/`VE`/`FE`/`dE` memoisation cells are omitted; the
  memoisation is semantically the identity because genes never change within
  a day, so the costs are recomputed inline here).
* Real-valued arithmetic is embedded over an arbitrary linear ordered field
  `K`; library functions from `numpy`/`math`/`random` and from `mesa`'s
  `ContinuousSpace` (square root, trigonometry, `get_distance`) enter as
  explicit function parameters, and every random draw enters as an explicit
  oracle argument, so each definition is a pure function of the draws.
* Lifecycle theorems instantiate `K := ℚ` (the code's float arithmetic is
  exact on the constants involved); geometric theorems instantiate `K := ℝ`
  with `Real.sqrt`, `Real.cos`, `Real.sin`, `Real.tan`, `Real.arctan`.
-/

namespace Candied

/-- Mutable per-creature state, following `Creature.__init__` in
`candied/agent.py`. -/
structure Creature (K : Type) where
  pos : K × K
  energy : K
  moving_angle : K
  eaten_candies : ℕ
  penalty : K
  speed : K
  mut_rate : K
  focus_angle : K
  view_range : K
  done_steps : ℕ
  energy_used_for_movement : K
  energy_spent_on_view_range : K
  energy_spent_on_focus_angle : K
  energy_lost : K
  energy_of_happiness : K
  moment_of_first_consumption : Option ℕ
  moment_of_second_consumption : Option ℕ
  age : ℕ
deriving DecidableEq

variable {K : Type} [LinearOrderedField K]

/-- Python truthiness test used on the optional gene arguments of
`Creature.__init__` (`speed or random.uniform(...)`): a float argument is
falsy exactly when it equals `0.0`, and `None` is falsy. -/
def geneOr (g : Option K) (rnd : K) : K :=
  match g with
  | none => rnd
  | some v => if v = 0 then rnd else v

/-- Python truthiness test on an optional tick index
(`if not self.moment_of_first_consumption:`): `None` and `0` are falsy. -/
def falsyNat (o : Option ℕ) : Bool :=
  match o with
  | none => true
  | some n => n = 0

/-- Embeds `Creature.__init__` from `candied/agent.py`.  `max_energy` is the parent
model's `max_energy`; `rnd_speed`, `rnd_mut`, `rnd_focus`, `rnd_view` are the
`random.uniform(0, max_*)` draws used when the corresponding gene argument is
falsy, and `rnd_moving_angle` is the `random.uniform(0, 2*pi)` draw. -/
def creature_init (max_energy : K) (pos : K × K)
    (speed focus_angle view_range mut_rate : Option K)
    (rnd_speed rnd_mut rnd_focus rnd_view rnd_moving_angle : K) : Creature K :=
  { pos := pos
    energy := max_energy
    moving_angle := rnd_moving_angle
    eaten_candies := 0
    penalty := 0
    speed := geneOr speed rnd_speed
    mut_rate := geneOr mut_rate rnd_mut
    focus_angle := geneOr focus_angle rnd_focus
    view_range := geneOr view_range rnd_view
    done_steps := 0
    energy_used_for_movement := 0
    energy_spent_on_view_range := 0
    energy_spent_on_focus_angle := 0
    energy_lost := 0
    energy_of_happiness := 0
    moment_of_first_consumption := none
    moment_of_second_consumption := none
    age := 0 }

/-- The value returned by `Creature.expend_energy(apply=False)`: the per-tick
cost `KE + VE + FE` where `KE = speed**2`, `VE = 1/np.tan(focus_angle/2)` and
`FE = 5 * view_range`. -/
def energy_cost (tan : K → K) (c : Creature K) : K :=
  c.speed ^ 2 + 1 / tan (c.focus_angle / 2) + 5 * c.view_range

/-- Embeds `Creature.expend_energy(apply=True)` from `candied/agent.py`: subtract the
total cost from `energy` and accumulate the components into the telemetry
fields.  Note the source accumulates the variable `FE` (which holds
`5 * view_range`) into `energy_spent_on_focus_angle` and the variable `VE`
(which holds `1 / tan(focus_angle / 2)`) into `energy_spent_on_view_range`;
this embedding reproduces those assignments exactly. -/
def expend_energy (tan : K → K) (c : Creature K) : Creature K :=
  let KE := c.speed ^ 2
  let VE := 1 / tan (c.focus_angle / 2)
  let FE := 5 * c.view_range
  let dE := KE + VE + FE
  { c with
    energy := c.energy - dE
    energy_used_for_movement := c.energy_used_for_movement + KE
    energy_spent_on_focus_angle := c.energy_spent_on_focus_angle + FE
    energy_spent_on_view_range := c.energy_spent_on_view_range + VE }

/-- Embeds `Creature.move` from `candied/agent.py`.  `rnd` is the single random draw
of the executed branch (`random.uniform(-focus_angle, focus_angle)` when food
was found, `random.uniform(-pi/2, pi/2)` otherwise).  The food branch mirrors
the source's sequential in-place updates: the second normalisation line
divides by the norm recomputed from the already-scaled `x`, and the rotated
`y` is computed from the already-rotated `x`. -/
def move (sqrt cos sin arctan : K → K) (c : Creature K)
    (food : Option (K × K)) (rnd : K) : Creature K :=
  let r := c.speed
  match food with
  | some fpos =>
    let x0 := fpos.1 - c.pos.1
    let y0 := fpos.2 - c.pos.2
    let x1 := x0 * (r / sqrt (x0 ^ 2 + y0 ^ 2))
    let y1 := y0 * (r / sqrt (x1 ^ 2 + y0 ^ 2))
    let x2 := x1 * cos rnd - y1 * sin rnd
    let y2 := x2 * sin rnd + y1 * cos rnd
    { c with
      pos := (c.pos.1 + x2, c.pos.2 + y2)
      moving_angle := arctan (y2 / x2) + rnd
      done_steps := c.done_steps + 1 }
  | none =>
    let theta := c.moving_angle + rnd
    { c with
      pos := (c.pos.1 + r * cos theta, c.pos.2 + r * sin theta)
      moving_angle := theta
      done_steps := c.done_steps + 1 }

/-- Embeds `Creature.eat_candy` from `candied/agent.py`.  `dist` abstracts
`mesa`'s toroidal `space.get_distance` between two positions. -/
def eat_candy (dist : K × K → K × K → K) (c : Creature K)
    (food : Option (K × K)) : Creature K :=
  match food with
  | none => c
  | some fpos =>
    if dist c.pos fpos < c.speed * (1 / 2) then
      let c' := { c with eaten_candies := c.eaten_candies + 1 }
      if falsyNat c'.moment_of_first_consumption then
        { c' with moment_of_first_consumption := some c'.done_steps }
      else
        { c' with moment_of_second_consumption := some c'.done_steps }
    else c

/-- Embeds `Creature.step` from `candied/agent.py` (one tick, also the body of
`stage_1_compete`): act only when the remaining energy exceeds the upcoming
tick cost and fewer than two candies have been eaten.  `food` abstracts the
result of `find_candy` (the nearest uneaten candy in view, if any). -/
def creature_step (sqrt cos sin arctan tan : K → K)
    (dist : K × K → K × K → K) (c : Creature K)
    (food : Option (K × K)) (rnd : K) : Creature K :=
  if energy_cost tan c < c.energy ∧ c.eaten_candies < 2 then
    eat_candy dist (move sqrt cos sin arctan (expend_energy tan c) food rnd) food
  else c

/-- Embeds `Creature.stage_0_prepare_for_new_day` from `candied/agent.py`: today's
energy is `(1 - penalty) * max_energy` and all per-day telemetry is reset
(`age` persists). -/
def stage_0_prepare_for_new_day (max_energy : K) (c : Creature K) : Creature K :=
  { c with
    energy := (1 - c.penalty) * max_energy
    eaten_candies := 0
    done_steps := 0
    energy_used_for_movement := 0
    energy_spent_on_view_range := 0
    energy_spent_on_focus_angle := 0
    energy_lost := 0
    energy_of_happiness := 0
    moment_of_first_consumption := none
    moment_of_second_consumption := none }

/-- Embeds `Creature.stage_2_report` from `candied/agent.py`: record terminal energy
in `energy_lost` (fewer than two candies) or `energy_of_happiness` (two
candies), then increment `age`. -/
def stage_2_report (c : Creature K) : Creature K :=
  let c' :=
    if c.eaten_candies < 2 then { c with energy_lost := c.energy }
    else { c with energy_of_happiness := c.energy }
  { c' with age := c'.age + 1 }

/-- Embeds `Creature.mutate` from `candied/agent.py`: `g1`, `g2`, `g3` are the three
`random.gauss(0, 1)` draws, applied in source order to `focus_angle`,
`view_range` and `speed`.  No draw is applied to `mut_rate`. -/
def mutate (c : Creature K) (g1 g2 g3 : K) : Creature K :=
  { c with
    focus_angle := c.focus_angle + c.mut_rate * g1
    view_range := c.view_range + c.mut_rate * g2
    speed := c.speed + c.mut_rate * g3 }

/-- One offspring of `Evolution.crossover` in `candied/model.py`: with the
pair's shared `mix ~ Uniform(0,1)`, blend the parents' genes
(`mix * p1 + (1 - mix) * p2`), build the `Creature` (whose constructor
re-randomises falsy gene values, see `geneOr`), then `mutate` it.  The second
offspring of the pair is the same function with `p1` and `p2` swapped. -/
def crossover_child (max_energy : K) (p1 p2 : Creature K) (mix : K)
    (pos : K × K) (rnd_speed rnd_mut rnd_focus rnd_view rnd_moving_angle : K)
    (g1 g2 g3 : K) : Creature K :=
  let speed := mix * p1.speed + (1 - mix) * p2.speed
  let focus_angle := mix * p1.focus_angle + (1 - mix) * p2.focus_angle
  let view_range := mix * p1.view_range + (1 - mix) * p2.view_range
  let mut_rate := mix * p1.mut_rate + (1 - mix) * p2.mut_rate
  mutate
    (creature_init max_energy pos (some speed) (some focus_angle)
      (some view_range) (some mut_rate) rnd_speed rnd_mut rnd_focus rnd_view
      rnd_moving_angle)
    g1 g2 g3

/-- The per-creature branch of `Evolution.evolve` in `candied/model.py`:
first component is the creature's state after the branch (`none` when it is
removed from the schedule), second component tells whether it was appended to
the `parents` list. -/
def evolve_creature (c : Creature K) : Option (Creature K) × Bool :=
  if c.eaten_candies = 0 then
    (none, false)
  else if c.eaten_candies = 1 then
    let c' := { c with penalty := c.penalty + 1 / 4 }
    (if 999999 / 1000000 ≤ c'.penalty then none else some c', false)
  else
    (some { c with penalty := 0 }, true)

/-- The creatures still scheduled after `Evolution.evolve`'s removal loop
(offspring not yet added). -/
def evolve_survivors (cs : List (Creature K)) : List (Creature K) :=
  cs.filterMap fun c => (evolve_creature c).1

/-- The `parents` list accumulated by `Evolution.evolve`'s removal loop. -/
def evolve_parents (cs : List (Creature K)) : List (Creature K) :=
  cs.filterMap fun c => if (evolve_creature c).2 then (evolve_creature c).1 else none

/-- Index pairs fed to `Evolution.crossover` by the reproduction section of
`Evolution.evolve`, for `k` shuffled parents: consecutive pairs
`(0,1), (2,3), ...` from `for i in range(0, 2 * (k // 2), 2)`, and, when `k`
is odd (and the `elif len(parents) > 1` branch was taken), the extra pair of
the last parent with `j`, the index drawn by `random.choice(parents[:-1])`
(so `j < k - 1`). -/
def reproduction_pairs (k j : ℕ) : List (ℕ × ℕ) :=
  (List.range (k / 2)).map (fun i => (2 * i, 2 * i + 1)) ++
    (if 2 ≤ k ∧ k % 2 = 1 then [(k - 1, j)] else [])

/-- Number of offspring added to the schedule by `Evolution.evolve` given `k`
reproduction candidates: one clone for a single parent, otherwise two
offspring per `crossover` call. -/
def n_offspring (k j : ℕ) : ℕ :=
  if k = 1 then 1
  else if 2 ≤ k then 2 * (reproduction_pairs k j).length
  else 0

/-- Stage list built in `Evolution.__init__` (`candied/model.py`):
`preparation_stage + compete_stages` where
`compete_stages = ['stage_1_compete'] * 100`. -/
def model_stages : List String :=
  ["stage_0_prepare_for_new_day"] ++ List.replicate 100 "stage_1_compete"

/-- Keyword parameters accepted by `Evolution.__init__` in
`candied/model.py`, in signature order. -/
def init_params : List String :=
  ["height", "width", "n_creatures", "n_candies", "max_days", "energy",
   "mut_rate", "speed", "view_range"]

/-- Embeds `Evolution.total_energy` from `candied/model.py`. -/
def total_energy (cs : List (Creature K)) : K :=
  (cs.map fun c => c.energy).sum

/-- The `"Energy"` model reporter of `Evolution`'s `DataCollector`:
`model.total_energy / len(list(model.creatures))`.  The division is embedded
in `Option`: `none` models the `ZeroDivisionError` Python raises when no
creature is alive. -/
def energy_reporter (cs : List (Creature K)) : Option K :=
  if cs.length = 0 then none else some (total_energy cs / cs.length)

/-- Embeds `Evolution.avg_speed` from `candied/model.py` (`none` models the
`ZeroDivisionError` on an empty population). -/
def avg_speed (cs : List (Creature K)) : Option K :=
  if cs.length = 0 then none
  else some ((cs.map fun c => c.speed).sum / cs.length)

/-- Embeds `Evolution.avg_view_range` from `candied/model.py`. -/
def avg_view_range (cs : List (Creature K)) : Option K :=
  if cs.length = 0 then none
  else some ((cs.map fun c => c.view_range).sum / cs.length)

/-- Embeds `Evolution.avg_focus_angle` from `candied/model.py`. -/
def avg_focus_angle (cs : List (Creature K)) : Option K :=
  if cs.length = 0 then none
  else some ((cs.map fun c => c.focus_angle).sum / cs.length)

/-- Embeds `Evolution.avg_mut_rate` from `candied/model.py`. -/
def avg_mut_rate (cs : List (Creature K)) : Option K :=
  if cs.length = 0 then none
  else some ((cs.map fun c => c.mut_rate).sum / cs.length)

/-- Embeds `Evolution.count_eaters` from `candied/model.py`. -/
def count_eaters (cs : List (Creature K)) (i : ℕ) : ℕ :=
  (cs.filter fun c => c.eaten_candies = i).length

/-- One row of model-level data produced by the `DataCollector`'s model
reporters in `Evolution.__init__`. -/
structure Row (K : Type) where
  energy : K
  speed : K
  view : K
  focus : K
  mut_rate : K
  creatures : ℕ
  candies : ℕ
  zero_eaters : ℕ
  one_eaters : ℕ
  two_eaters : ℕ
deriving DecidableEq

/-- Model-level state of `Evolution` (`candied/model.py`).  Candies carry no
state the verified properties read beyond their count, so the schedule's candy
population is its cardinality. -/
structure ModelState (K : Type) where
  day : ℕ
  last_day : ℕ
  n_candies : ℕ
  candies : ℕ
  creatures : List (Creature K)
  rows : List (Row K)
  running : Bool
deriving DecidableEq

/-- Embeds `self.datacollector.collect(self)`: evaluate every model reporter and
append a row.  `none` models an uncaught `ZeroDivisionError` from one of the
mean reporters. -/
def collect_row (s : ModelState K) : Option (Row K) := do
  let e ← energy_reporter s.creatures
  let sp ← avg_speed s.creatures
  let vw ← avg_view_range s.creatures
  let fo ← avg_focus_angle s.creatures
  let mu ← avg_mut_rate s.creatures
  pure
    { energy := e, speed := sp, view := vw, focus := fo, mut_rate := mu
      creatures := s.creatures.length, candies := s.candies
      zero_eaters := count_eaters s.creatures 0
      one_eaters := count_eaters s.creatures 1
      two_eaters := count_eaters s.creatures 2 }

/-- The schedule of `candied/model.py` is always a `StagedActivation` (the
`RandomActivation` alternative is commented out), so the candy-spawn guard
`self.day == 1 or isinstance(self.schedule, StagedActivation)` always passes. -/
def schedule_is_staged : Bool := true

/-- Embeds `Evolution.step` from `candied/model.py`.  `run_day` abstracts the pair
`self.schedule.step(); self.evolve()` executed when the day is still in range
(its pieces are modelled by `creature_step`, the stage functions,
`evolve_creature` and `n_offspring`); the candy removal that follows it is
explicit.  The result is `none` when `collect` raises `ZeroDivisionError`.
`running` is never consulted. -/
def evolution_step (run_day : ModelState K → ModelState K)
    (s : ModelState K) : Option (ModelState K) :=
  let s1 := { s with day := s.day + 1 }
  let s2 :=
    if s1.day = 1 ∨ schedule_is_staged = true then
      { s1 with candies := s1.candies + s1.n_candies }
    else s1
  (collect_row s2).map fun row =>
    let s3 := { s2 with rows := s2.rows ++ [row] }
    if s3.day < s3.last_day then
      let s4 := run_day s3
      { s4 with candies := 0 }
    else
      { s3 with running := false }

/-- A concrete creature used to instantiate theorems (genes and counters are
arbitrary in-range values). -/
def base_creature (K : Type) [LinearOrderedField K] : Creature K :=
  { pos := (0, 0)
    energy := 500
    moving_angle := 0
    eaten_candies := 0
    penalty := 0
    speed := 3
    mut_rate := 1
    focus_angle := 1
    view_range := 2
    done_steps := 0
    energy_used_for_movement := 0
    energy_spent_on_view_range := 0
    energy_spent_on_focus_angle := 0
    energy_lost := 0
    energy_of_happiness := 0
    moment_of_first_consumption := none
    moment_of_second_consumption := none
    age := 0 }

/-- The base creature with the genes used by the energy-telemetry theorem:
speed 1, focus angle `fa`, view range 2. -/
def c4_creature (K : Type) [LinearOrderedField K] (fa : K) : Creature K :=
  { base_creature K with speed := 1, focus_angle := fa, view_range := 2 }

/-- A model state in which every creature has died (as after a day on which
all creatures ate zero candies). -/
def s_dead : ModelState ℚ :=
  { day := 4, last_day := 9, n_candies := 3, candies := 0, creatures := [],
    rows := [], running := true }

/-- A reachable post-terminal model state: the day counter has reached
`last_day`, so `running` has been set to `false`. -/
def s_halted : ModelState ℚ :=
  { day := 3, last_day := 3, n_candies := 2, candies := 0,
    creatures := [base_creature ℚ], rows := [], running := false }

/-- The spec's per-creature invariant: `eaten_candies ∈ {0,1,2}` and
`penalty ∈ [0,1]`. -/
def creature_invariant (c : Creature K) : Prop :=
  c.eaten_candies ≤ 2 ∧ 0 ≤ c.penalty ∧ c.penalty ≤ 1

/-- C1: the claim says the per-day model-level mean reporters return a
not-a-number sentinel and never raise a division error when zero creatures
are alive.  The code divides by the creature count with no guard, so with an
empty population every mean reporter — and hence the collection performed by
`Evolution.step` — raises `ZeroDivisionError` (modelled by `none`) instead of
producing a sentinel row. -/
theorem empty_population_means_raise_division_error :
    avg_speed ([] : List (Creature ℚ)) = none ∧
    avg_view_range ([] : List (Creature ℚ)) = none ∧
    avg_focus_angle ([] : List (Creature ℚ)) = none ∧
    avg_mut_rate ([] : List (Creature ℚ)) = none ∧
    energy_reporter ([] : List (Creature ℚ)) = none ∧
    evolution_step id s_dead = none := by
  exact ⟨rfl, rfl, rfl, rfl, rfl, rfl⟩

/-- C2: the claim says a day consists of `[prepare_for_new_day]`, then
`max_steps_per_day` repetitions of `compete` (with `max_steps_per_day` a
recognized constructor option), then one report stage.  The stage list built
by `Evolution.__init__` contains no report stage, hard-codes 100 repetitions,
and the constructor accepts no `max_steps_per_day` keyword (even though
`run.py` passes one). -/
theorem stage_list_has_no_report_stage :
    model_stages =
      "stage_0_prepare_for_new_day" :: List.replicate 100 "stage_1_compete" ∧
    model_stages.length = 101 ∧
    "stage_2_report" ∉ model_stages ∧
    "max_steps_per_day" ∉ init_params := by
  refine ⟨rfl, rfl, ?_, ?_⟩
  · simp [model_stages, List.mem_replicate]
  · simp [init_params]

/-- C10: `Creature.__init__` assigns each gene with the falsy-`or` idiom
(`speed or random.uniform(0, max_speed)`), so an explicit gene argument equal
to `0` is discarded and replaced by a fresh uniform draw, while a negative
gene argument is kept exactly as passed. -/
theorem gene_zero_redrawn_negative_kept
    (max_energy : ℚ) (pos : ℚ × ℚ) (rs rm rf rv ra : ℚ) (v : ℚ)
    (hv : v < 0) :
    ((creature_init max_energy pos (some 0) (some 0) (some 0) (some 0)
        rs rm rf rv ra).speed = rs ∧
     (creature_init max_energy pos (some 0) (some 0) (some 0) (some 0)
        rs rm rf rv ra).mut_rate = rm ∧
     (creature_init max_energy pos (some 0) (some 0) (some 0) (some 0)
        rs rm rf rv ra).focus_angle = rf ∧
     (creature_init max_energy pos (some 0) (some 0) (some 0) (some 0)
        rs rm rf rv ra).view_range = rv) ∧
    ((creature_init max_energy pos (some v) (some v) (some v) (some v)
        rs rm rf rv ra).speed = v ∧
     (creature_init max_energy pos (some v) (some v) (some v) (some v)
        rs rm rf rv ra).mut_rate = v ∧
     (creature_init max_energy pos (some v) (some v) (some v) (some v)
        rs rm rf rv ra).focus_angle = v ∧
     (creature_init max_energy pos (some v) (some v) (some v) (some v)
        rs rm rf rv ra).view_range = v) := by
  have hv' : v ≠ 0 := ne_of_lt hv
  refine ⟨⟨?_, ?_, ?_, ?_⟩, ⟨?_, ?_, ?_, ?_⟩⟩ <;>
    simp [creature_init, geneOr, hv']

/-- Witness for the gene-default theorem at the concrete gene value `-1`. -/
theorem gene_zero_redrawn_negative_kept_witness :
    (creature_init (500 : ℚ) (0, 0) (some (-1)) (some (-1)) (some (-1))
      (some (-1)) 1 2 3 4 5).speed = -1 :=
  (gene_zero_redrawn_negative_kept 500 (0, 0) 1 2 3 4 5 (-1)
    (by norm_num)).2.1

/-- C5 counterexample: the claim says `Creature.mutate` perturbs each of the
four genome genes, including `mut_rate`, by `mut_rate * Normal(0,1)`.  At
mutation rate 1 with every gaussian draw equal to 1 the claim predicts a
resulting mutation rate of `1 + 1 * 1 = 2`, but the code leaves `mut_rate`
untouched at `1`. -/
theorem mutate_mut_rate_counterexample :
    (mutate (base_creature ℚ) 1 1 1).mut_rate ≠
      (base_creature ℚ).mut_rate + (base_creature ℚ).mut_rate * 1 := by
  norm_num [mutate, base_creature]

/-- C5 amended: `Creature.mutate` perturbs the three genes `focus_angle`,
`view_range` and `speed`, each independently by `mut_rate` times its own
gaussian draw, and leaves the `mut_rate` gene unchanged. -/
theorem mutate_perturbs_three_genes (c : Creature ℚ) (g1 g2 g3 : ℚ) :
    (mutate c g1 g2 g3).focus_angle = c.focus_angle + c.mut_rate * g1 ∧
    (mutate c g1 g2 g3).view_range = c.view_range + c.mut_rate * g2 ∧
    (mutate c g1 g2 g3).speed = c.speed + c.mut_rate * g3 ∧
    (mutate c g1 g2 g3).mut_rate = c.mut_rate := by
  exact ⟨rfl, rfl, rfl, rfl⟩

/-- C7: the per-creature branch of `Evolution.evolve` partitions live
creatures by `eaten_candies`: zero eaters are removed; one eaters gain 0.25
penalty and are removed exactly when the resulting penalty reaches the
0.999999 threshold; two eaters get their penalty reset to 0, stay alive, and
become reproduction candidates. -/
theorem evolve_partitions_by_eaten_candies (c : Creature ℚ) :
    (c.eaten_candies = 0 → evolve_creature c = (none, false)) ∧
    (c.eaten_candies = 1 →
      (evolve_creature c).2 = false ∧
      ((evolve_creature c).1 = none ↔ 999999 / 1000000 ≤ c.penalty + 1 / 4) ∧
      (∀ c', (evolve_creature c).1 = some c' →
        c' = { c with penalty := c.penalty + 1 / 4 })) ∧
    (c.eaten_candies = 2 →
      evolve_creature c = (some { c with penalty := 0 }, true)) := by
  refine ⟨fun h => ?_, fun h => ?_, fun h => ?_⟩
  · simp [evolve_creature, h]
  · refine ⟨?_, ?_, ?_⟩
    · simp [evolve_creature, h]
    · by_cases hthr : (999999 : ℚ) / 1000000 ≤ c.penalty + 1 / 4 <;>
        simp [evolve_creature, h, hthr]
    · intro c' hc'
      simp only [evolve_creature, h, Nat.one_ne_zero, if_false, if_true,
        reduceIte] at hc'
      split at hc'
      · exact absurd hc' (by simp)
      · injection hc' with h2
        rw [h]
        exact h2.symm
  · simp [evolve_creature, h]

/-- Witness for the evolve partition theorem: a one-eater at penalty 0.75 is
pushed to penalty 1.0 and removed. -/
theorem evolve_partitions_by_eaten_candies_witness :
    (evolve_creature
      { base_creature ℚ with eaten_candies := 1, penalty := 3 / 4 }).1 =
      none :=
  ((evolve_partitions_by_eaten_candies
      { base_creature ℚ with eaten_candies := 1, penalty := 3 / 4 }).2.1
    rfl).2.1.mpr (by norm_num)

/-- C8: the number of offspring `Evolution.evolve` adds is `0`, `1`, `2` for
`0`, `1`, `2` reproduction candidates, `k` for even `k`, and `k + 1` for odd
`k ≥ 3` (the unpaired last candidate is crossed with a random other
candidate, never itself: the partner index is drawn from `parents[:-1]`). -/
theorem reproduction_arity (k j : ℕ) :
    n_offspring 0 j = 0 ∧
    n_offspring 1 j = 1 ∧
    n_offspring 2 j = 2 ∧
    (k % 2 = 0 → n_offspring k j = k) ∧
    (k % 2 = 1 → 3 ≤ k → n_offspring k j = k + 1) ∧
    (j < k - 1 → ∀ p ∈ reproduction_pairs k j, p.1 ≠ p.2) := by
  have hlen : ∀ m : ℕ, (reproduction_pairs m j).length =
      m / 2 + (if 2 ≤ m ∧ m % 2 = 1 then 1 else 0) := by
    intro m
    simp only [reproduction_pairs, List.length_append, List.length_map,
      List.length_range]
    split <;> simp
  refine ⟨rfl, rfl, ?_, fun he => ?_, fun ho h3 => ?_, fun hj p hp => ?_⟩
  · unfold n_offspring
    rw [hlen]
    norm_num
  · unfold n_offspring
    rw [hlen]
    split
    · omega
    · split
      · split
        · omega
        · omega
      · omega
  · unfold n_offspring
    rw [hlen]
    split
    · omega
    · split
      · split
        · omega
        · rename_i hneg
          exact absurd ⟨by omega, ho⟩ hneg
      · omega
  · simp only [reproduction_pairs, List.mem_append, List.mem_map,
      List.mem_range] at hp
    rcases hp with ⟨i, _, rfl⟩ | hp
    · dsimp only
      omega
    · by_cases hk2 : 2 ≤ k ∧ k % 2 = 1
      · rw [if_pos hk2] at hp
        simp only [List.mem_singleton] at hp
        subst hp
        dsimp only
        omega
      · rw [if_neg hk2] at hp
        simp at hp


/-- Witness for the reproduction arity theorem: five candidates produce six
offspring. -/
theorem reproduction_arity_witness : n_offspring 5 2 = 5 + 1 :=
  (reproduction_arity 5 2).2.2.2.2.1 rfl (by norm_num)

/-- C6 counterexample: the claim says a call to `Evolution.step` in a state
with `running = false` leaves the model unchanged.  In the post-terminal
state `s_halted` (`day = last_day = 3`, `running = false`), `step` still
increments the day counter to 4, so the state does change. -/
theorem step_after_halt_mutates_state :
    (evolution_step id s_halted).map (fun s' => s'.day) =
      some (s_halted.day + 1) ∧
    evolution_step id s_halted ≠ some s_halted := by
  have h4 : (evolution_step id s_halted).map (fun s' => s'.day) = some 4 := rfl
  refine ⟨h4, fun hEq => ?_⟩
  rw [hEq] at h4
  simp [s_halted] at h4

/-- C6 amended: `Evolution.step` never consults `running`.  Called in any
post-terminal state (`running = false`, which in reachable executions entails
`last_day ≤ day`), it still increments the day counter, spawns `n_candies`
fresh candies, and collects one more statistics row; it does not run the
scheduler stages or `evolve` (the day test fails), leaves the creature
population unchanged, and sets `running` to `false` again. -/
theorem step_ignores_running_flag (f : ModelState ℚ → ModelState ℚ)
    (s : ModelState ℚ) (_hrun : s.running = false)
    (hday : s.last_day ≤ s.day)
    (hcs : s.creatures ≠ []) :
    (evolution_step f s).map (fun s' => s'.day) = some (s.day + 1) ∧
    (evolution_step f s).map (fun s' => s'.candies) =
      some (s.candies + s.n_candies) ∧
    (evolution_step f s).map (fun s' => s'.rows.length) =
      some (s.rows.length + 1) ∧
    (evolution_step f s).map (fun s' => s'.running) = some false ∧
    (evolution_step f s).map (fun s' => s'.creatures) = some s.creatures := by
  have hne : s.creatures.length ≠ 0 := by
    simpa [List.length_eq_zero] using hcs
  obtain ⟨row, hrow⟩ : ∃ row,
      collect_row
        { s with day := s.day + 1, candies := s.candies + s.n_candies } =
        some row := by
    unfold collect_row energy_reporter avg_speed avg_view_range
      avg_focus_angle avg_mut_rate
    simp [hne]
  have hlt : ¬ (s.day + 1 < s.last_day) := by omega
  refine ⟨?_, ?_, ?_, ?_, ?_⟩ <;>
    simp [evolution_step, schedule_is_staged, hrow, hlt]

/-- Witness for the post-terminal step theorem at the concrete state
`s_halted`. -/
theorem step_ignores_running_flag_witness :
    (evolution_step id s_halted).map (fun s' => s'.day) =
      some (s_halted.day + 1) ∧
    (evolution_step id s_halted).map (fun s' => s'.candies) =
      some (s_halted.candies + s_halted.n_candies) ∧
    (evolution_step id s_halted).map (fun s' => s'.rows.length) =
      some (s_halted.rows.length + 1) ∧
    (evolution_step id s_halted).map (fun s' => s'.running) = some false ∧
    (evolution_step id s_halted).map (fun s' => s'.creatures) =
      some s_halted.creatures :=
  step_ignores_running_flag id s_halted rfl (by norm_num [s_halted])
    (by simp [s_halted])

theorem expend_energy_eaten (tan : K → K) (c : Creature K) :
    (expend_energy tan c).eaten_candies = c.eaten_candies := rfl

theorem expend_energy_penalty (tan : K → K) (c : Creature K) :
    (expend_energy tan c).penalty = c.penalty := rfl

theorem move_eaten (sqrt cos sin arctan : K → K) (c : Creature K)
    (food : Option (K × K)) (rnd : K) :
    (move sqrt cos sin arctan c food rnd).eaten_candies = c.eaten_candies := by
  cases food <;> rfl

theorem move_penalty (sqrt cos sin arctan : K → K) (c : Creature K)
    (food : Option (K × K)) (rnd : K) :
    (move sqrt cos sin arctan c food rnd).penalty = c.penalty := by
  cases food <;> rfl

theorem eat_candy_eaten_le (dist : K × K → K × K → K) (c : Creature K)
    (food : Option (K × K)) :
    (eat_candy dist c food).eaten_candies ≤ c.eaten_candies + 1 := by
  cases food with
  | none => exact Nat.le_succ _
  | some fpos =>
    show (if dist c.pos fpos < c.speed * (1 / 2) then _ else c).eaten_candies ≤
      c.eaten_candies + 1
    split
    · dsimp only
      split <;> exact Nat.le_refl _
    · exact Nat.le_succ _

theorem eat_candy_penalty (dist : K × K → K × K → K) (c : Creature K)
    (food : Option (K × K)) :
    (eat_candy dist c food).penalty = c.penalty := by
  cases food with
  | none => rfl
  | some fpos =>
    show (if dist c.pos fpos < c.speed * (1 / 2) then _ else c).penalty =
      c.penalty
    split
    · dsimp only
      split <;> rfl
    · rfl

omit [LinearOrderedField K] in
theorem stage_2_report_eaten (c : Creature K) :
    (stage_2_report c).eaten_candies = c.eaten_candies := by
  unfold stage_2_report
  split <;> rfl

omit [LinearOrderedField K] in
theorem stage_2_report_penalty (c : Creature K) :
    (stage_2_report c).penalty = c.penalty := by
  unfold stage_2_report
  split <;> rfl

/-- C9: the spec invariant `eaten_candies ∈ {0,1,2} ∧ penalty ∈ [0,1]` is
preserved at every point: a compete tick preserves it (and eats at most one
candy), a creature that already ate two candies does not act, the
preparation and report stages preserve it, any survivor of
`Evolution.evolve`'s removal loop satisfies it (a one-eater whose penalty
would exceed the threshold is removed first), and every freshly constructed
creature satisfies it. -/
theorem creature_lifecycle_invariant
    (sqrt cos sin arctan tan : ℚ → ℚ) (dist : ℚ × ℚ → ℚ × ℚ → ℚ)
    (c : Creature ℚ) (food : Option (ℚ × ℚ)) (rnd max_energy : ℚ)
    (pos : ℚ × ℚ) (gs gf gv gm : Option ℚ) (rs rm rf rv ra : ℚ) :
    (creature_invariant c →
      creature_invariant
        (creature_step sqrt cos sin arctan tan dist c food rnd)) ∧
    (creature_step sqrt cos sin arctan tan dist c food rnd).eaten_candies ≤
      c.eaten_candies + 1 ∧
    (c.eaten_candies = 2 →
      creature_step sqrt cos sin arctan tan dist c food rnd = c) ∧
    (creature_invariant c →
      creature_invariant (stage_0_prepare_for_new_day max_energy c)) ∧
    (creature_invariant c → creature_invariant (stage_2_report c)) ∧
    (∀ c', (evolve_creature c).1 = some c' → creature_invariant c →
      creature_invariant c') ∧
    creature_invariant
      (creature_init max_energy pos gs gf gv gm rs rm rf rv ra) := by
  have heat : ∀ c0 : Creature ℚ,
      (eat_candy dist (move sqrt cos sin arctan (expend_energy tan c0) food
        rnd) food).eaten_candies ≤ c0.eaten_candies + 1 := by
    intro c0
    have h := eat_candy_eaten_le dist
      (move sqrt cos sin arctan (expend_energy tan c0) food rnd) food
    rwa [move_eaten, expend_energy_eaten] at h
  have hpen : ∀ c0 : Creature ℚ,
      (eat_candy dist (move sqrt cos sin arctan (expend_energy tan c0) food
        rnd) food).penalty = c0.penalty := by
    intro c0
    have h := eat_candy_penalty dist
      (move sqrt cos sin arctan (expend_energy tan c0) food rnd) food
    rwa [move_penalty, expend_energy_penalty] at h
  refine ⟨?_, ?_, ?_, ?_, ?_, ?_, ?_⟩
  · rintro ⟨h1, h2, h3⟩
    unfold creature_step
    split
    · rename_i hact
      refine ⟨?_, ?_, ?_⟩
      · have := heat c
        omega
      · rw [hpen c]
        exact h2
      · rw [hpen c]
        exact h3
    · exact ⟨h1, h2, h3⟩
  · unfold creature_step
    split
    · exact heat c
    · exact Nat.le_succ _
  · intro h2c
    unfold creature_step
    rw [if_neg]
    rintro ⟨-, hlt⟩
    omega
  · rintro ⟨h1, h2, h3⟩
    exact ⟨Nat.zero_le 2, h2, h3⟩
  · rintro ⟨h1, h2, h3⟩
    refine ⟨?_, ?_, ?_⟩
    · rw [stage_2_report_eaten]
      exact h1
    · rw [stage_2_report_penalty]
      exact h2
    · rw [stage_2_report_penalty]
      exact h3
  · rintro c' hc' ⟨h1, h2, h3⟩
    by_cases e0 : c.eaten_candies = 0
    · unfold evolve_creature at hc'
      rw [if_pos e0] at hc'
      replace hc' : (none : Option (Creature ℚ)) = some c' := hc'
      exact Option.noConfusion hc'
    · by_cases e1 : c.eaten_candies = 1
      · unfold evolve_creature at hc'
        rw [if_neg e0, if_pos e1] at hc'
        replace hc' :
            (if (999999 : ℚ) / 1000000 ≤ c.penalty + 1 / 4 then none
              else some { c with penalty := c.penalty + 1 / 4 }) =
              some c' := hc'
        split at hc'
        · exact Option.noConfusion hc'
        · rename_i hthr
          injection hc' with h4
          subst h4
          refine ⟨h1, by linarith, ?_⟩
          push_neg at hthr
          show c.penalty + 1 / 4 ≤ 1
          linarith
      · unfold evolve_creature at hc'
        rw [if_neg e0, if_neg e1] at hc'
        replace hc' : some { c with penalty := (0 : ℚ) } = some c' := hc'
        injection hc' with h4
        subst h4
        exact ⟨h1, le_refl 0, by norm_num⟩
  · refine ⟨Nat.zero_le 2, ?_, ?_⟩
    · show (0 : ℚ) ≤ 0
      exact le_refl 0
    · show (0 : ℚ) ≤ 1
      norm_num

/-- C4: the claim says `expend_energy` accumulates the focus term
`1/tan(focus_angle/2)` into `energy_spent_on_focus_angle` and the view term
`5 * view_range` into `energy_spent_on_view_range`.  At `speed = 1`,
`focus_angle = pi/2`, `view_range = 2` the focus term is `1/tan(pi/4) = 1`
and the view term is `10`, yet the code stores `10` in the focus bucket and
`1` in the view bucket — the telemetry buckets are swapped (the energy
subtraction itself matches the claim). -/
theorem expend_energy_swaps_telemetry_buckets :
    (expend_energy Real.tan
      (c4_creature ℝ (Real.pi / 2))).energy_spent_on_focus_angle = 10 ∧
    (expend_energy Real.tan
      (c4_creature ℝ (Real.pi / 2))).energy_spent_on_view_range = 1 ∧
    (expend_energy Real.tan (c4_creature ℝ (Real.pi / 2))).energy =
      500 - (1 ^ 2 + 1 + 5 * 2) ∧
    1 / Real.tan (Real.pi / 2 / 2) = 1 ∧
    5 * (c4_creature ℝ (Real.pi / 2)).view_range = 10 := by
  have htan : Real.tan (Real.pi / 2 / 2) = 1 := by
    rw [show Real.pi / 2 / 2 = Real.pi / 4 by ring]
    exact Real.tan_pi_div_four
  refine ⟨?_, ?_, ?_, ?_, ?_⟩
  · norm_num [expend_energy, c4_creature, base_creature]
  · norm_num [expend_energy, c4_creature, base_creature, htan]
  · norm_num [expend_energy, c4_creature, base_creature, htan]
  · rw [htan]
    norm_num
  · norm_num [c4_creature, base_creature]

/-- C3: the claim says `Creature.move` always displaces the creature by a
vector of norm exactly `speed`.  For a creature at `(0,0)` with speed `12.5`
and food at `(3,4)` (rotation draw `0`), the code's sequential updates
normalise `y` by the norm recomputed from the already-scaled `x`, producing
the displacement `(7.5, 100/17)` whose norm is about `9.53`, not `12.5`. -/
theorem move_food_branch_displacement_not_speed :
    (move Real.sqrt Real.cos Real.sin Real.arctan
        { base_creature ℝ with speed := 25 / 2 } (some (3, 4)) 0).pos =
      (15 / 2, 100 / 17) ∧
    Real.sqrt ((15 / 2) ^ 2 + (100 / 17) ^ 2) ≠
      ({ base_creature ℝ with speed := 25 / 2 } : Creature ℝ).speed := by
  constructor
  · simp only [move, base_creature]
    norm_num
    rw [show Real.sqrt (25 : ℝ) = 5 by
      rw [show (25 : ℝ) = 5 ^ 2 by norm_num]
      exact Real.sqrt_sq (by norm_num)]
    rw [show Real.sqrt (((3 : ℝ) * (25 / 2 / 5)) ^ 2 + 16) = 17 / 2 by
      rw [show ((3 : ℝ) * (25 / 2 / 5)) ^ 2 + 16 = (17 / 2) ^ 2 by norm_num]
      exact Real.sqrt_sq (by norm_num)]
    norm_num
  · intro hEq
    replace hEq : Real.sqrt ((15 / 2 : ℝ) ^ 2 + (100 / 17) ^ 2) = 25 / 2 := hEq
    have hS : ((15 / 2 : ℝ) ^ 2 + (100 / 17) ^ 2) = (25 / 2) ^ 2 := by
      have hsq := congrArg (fun x : ℝ => x ^ 2) hEq
      simpa [Real.sq_sqrt
        (show (0 : ℝ) ≤ (15 / 2) ^ 2 + (100 / 17) ^ 2 by positivity)]
        using hsq
    norm_num at hS

/-- Witness for the lifecycle invariant theorem: one tick from the concrete
base creature with no food in sight keeps the invariant. -/
theorem creature_lifecycle_invariant_witness :
    creature_invariant
      (creature_step (fun x => x) (fun x => x) (fun x => x) (fun x => x)
        (fun x => x) (fun _ q => q.1) (base_creature ℚ) none 0) :=
  (creature_lifecycle_invariant (fun x => x) (fun x => x) (fun x => x)
      (fun x => x) (fun x => x) (fun _ q => q.1) (base_creature ℚ) none 0 500
      (0, 0) none none none none 1 1 1 1 1).1
    ⟨by norm_num [base_creature], by norm_num [base_creature],
      by norm_num [base_creature]⟩

end Candied
